import Mathlib

/-!
# LegisQ — verification of the record store, code generator and search/filter engine

Shallow embedding of the LegisQ legislative record-keeping application
(`database_ops.py`, `admin_forms.py`, `viewers_modules.py`, `setup_schema.py`).

Modelling conventions:
* SQLite rows become Lean structures; `NULL`-able columns become `Option`.
* Table contents are `List`s of rows; SQL joins, `WHERE` filters, `ORDER BY`
  and `LIMIT` become the corresponding pure list operations.
* `sqlite3` errors caught by the Python `try/except` blocks become an
  `OpResult` value (`ok` mirrors an `st.success` banner, `err` an `st.error`
  banner); no Python code path raises past the handler.
* Python `str.lower` / SQLite `LOWER` are modelled by ASCII lowercasing
  (the two agree on ASCII, which is the alphabet of all codes and statuses).
* SQL `LIKE` is modelled with its full wildcard semantics (`%`, `_`).
* `random.randint(1000, 9999)` becomes an explicit parameter `n` constrained
  by `1000 ≤ n ∧ n ≤ 9999` (the inclusive range of `randint`).
-/

namespace LegisQ

/-! ## String helpers -/

/-- ASCII lowercasing of a character, as done by SQLite `LOWER` (and by
Python `str.lower` on ASCII text). -/
def lowerChar (c : Char) : Char :=
  if 'A' ≤ c ∧ c ≤ 'Z' then Char.ofNat (c.toNat + 32) else c

/-- ASCII lowercasing of a string. -/
def asciiLower (s : String) : String :=
  String.mk (s.data.map lowerChar)

/-- Python's `needle in hay` substring test. -/
def strIn (needle hay : String) : Bool :=
  hay.data.tails.any (fun t => needle.data.isPrefixOf t)

/-- SQL `LIKE` pattern matching: `%` matches any (possibly empty) sequence,
`_` matches exactly one character, anything else matches itself.
Structural recursion on the pattern: the `%` case tries every suffix of the
subject string. -/
def likeMatch : List Char → List Char → Bool
  | [], s => s.isEmpty
  | p :: ps, s =>
    if p = '%' then s.tails.any (fun t => likeMatch ps t)
    else
      match s with
      | [] => false
      | c :: cs => (p = '_' || p = c) && likeMatch ps cs

/-- The `WHERE … LIKE ?` test used by every search query: the parameter is
`"%" + search_term.lower() + "%"` and the column is wrapped in `LOWER`. -/
def sqlLikeContains (search_term field : String) : Bool :=
  likeMatch ('%' :: ((asciiLower search_term).data ++ ['%'])) (asciiLower field).data

/-- Python `f"...{x}..."` rendering of an optional value: `None` prints as
`"None"`. -/
def pyStr : Option String → String
  | some s => s
  | none => "None"

/-! ## Decimal digit count (for the generated-code suffix) -/

/-- Number of decimal digits of `n` (with `digLen 0 = 1`), matching what
`Nat.toDigitsCore` emits. -/
def digLen (n : Nat) : Nat :=
  if n < 10 then 1 else digLen (n / 10) + 1
termination_by n
decreasing_by
  exact Nat.div_lt_self (by omega) (by omega)

theorem digLen_of_lt (n : Nat) (h : n < 10) : digLen n = 1 := by
  rw [digLen, if_pos h]

theorem digLen_of_ge (n : Nat) (h : ¬ n < 10) : digLen n = digLen (n / 10) + 1 := by
  rw [digLen, if_neg h]

theorem toDigitsCore_length_exact :
    ∀ (fuel n : Nat) (ds : List Char), n < fuel →
      (Nat.toDigitsCore 10 fuel n ds).length = digLen n + ds.length := by
  intro fuel
  induction fuel with
  | zero => intro n ds h; omega
  | succ f ih =>
    intro n ds h
    simp only [Nat.toDigitsCore]
    by_cases h10 : n / 10 = 0
    · rw [if_pos h10]
      rw [digLen_of_lt n (by omega)]
      simp
      omega
    · rw [if_neg h10]
      rw [ih (n / 10) (Nat.digitChar (n % 10) :: ds) (by omega)]
      rw [digLen_of_ge n (by omega)]
      simp
      omega

/-- The decimal representation of `n` has exactly `digLen n` characters. -/
theorem repr_length_eq_digLen (n : Nat) : (Nat.repr n).length = digLen n := by
  show (Nat.toDigits 10 n).asString.length = digLen n
  have : (Nat.toDigits 10 n).asString.length = (Nat.toDigits 10 n).length := rfl
  rw [this]
  unfold Nat.toDigits
  rw [toDigitsCore_length_exact (n + 1) n [] (by omega)]
  simp

/-- A number in `[1000, 9999]` has a four-character decimal representation. -/
theorem repr_length_four (n : Nat) (h1 : 1000 ≤ n) (h2 : n ≤ 9999) :
    (Nat.repr n).length = 4 := by
  rw [repr_length_eq_digLen]
  rw [digLen_of_ge n (by omega)]
  rw [digLen_of_ge (n / 10) (by omega)]
  rw [digLen_of_ge (n / 10 / 10) (by omega)]
  rw [digLen_of_lt (n / 10 / 10 / 10) (by omega)]

/-! ## Data model (tables from `setup_schema.py`) -/

/-- A row of the `ministries` table (the surrogate `id` is never read by the
application, so it is omitted). `code` and `name` are both UNIQUE. -/
structure Ministry where
  code : String
  name : String
deriving DecidableEq

/-- A row of the `states` table. -/
structure StateRow where
  code : String
  name : String
deriving DecidableEq

/-- The data inserted into the `bills` table by `save_bill_record`, in the
column order of the INSERT statement.  Nullable columns are `Option`. -/
structure BillData where
  bill_code : String
  bill_name : String
  introduced_by : String
  ministry_code : Option String
  legislative_body : String
  state_code : Option String
  votes_favour : Nat
  votes_against : Nat
  current_status : String
  approval_status : String
  approval_result : String
  is_money_bill : Bool
  pdf_path : Option String
  introduced_date : String
deriving DecidableEq

/-- A stored row of the `bills` table: the inserted data plus the
AUTOINCREMENT primary key. -/
structure Bill extends BillData where
  id : Nat
deriving DecidableEq

/-- The data inserted into the `questions` table by `render_question_form`. -/
structure QuestionData where
  question_code : String
  question_title : String
  introduced_by : String
  ministry_code : Option String
  legislative_body : String
  state_code : Option String
  q_type : String
  current_status : String
  pdf_path : Option String
  introduced_date : String
deriving DecidableEq

/-- A stored row of the `questions` table. -/
structure Question extends QuestionData where
  id : Nat
deriving DecidableEq

/-! ## Code generator (`admin_forms.py` lines 152–156 and 225–229) -/

/-- Bill code generation: `f"{state_code}-{ministry_code}-{random_num}"` for a
State Assembly bill, `f"BL-{ministry_code}-{random_num}"` otherwise. -/
def genBillCode (legislative_body : String) (state_code ministry_code : Option String)
    (random_num : Nat) : String :=
  if legislative_body = "State Assembly" then
    pyStr state_code ++ "-" ++ pyStr ministry_code ++ "-" ++ Nat.repr random_num
  else
    "BL-" ++ pyStr ministry_code ++ "-" ++ Nat.repr random_num

/-- Question code generation: same as bills but with the `QN-` fallback. -/
def genQuestionCode (legislative_body : String) (state_code ministry_code : Option String)
    (random_num : Nat) : String :=
  if legislative_body = "State Assembly" then
    pyStr state_code ++ "-" ++ pyStr ministry_code ++ "-" ++ Nat.repr random_num
  else
    "QN-" ++ pyStr ministry_code ++ "-" ++ Nat.repr random_num

/-! ## Lexicographic string comparison (Python `sorted`, SQLite text `ORDER BY`) -/

/-- Lexicographic comparison of character lists by code point, the order used
by Python `sorted` on strings and by SQLite when ordering ASCII text. -/
def lexLe : List Char → List Char → Bool
  | [], _ => true
  | _ :: _, [] => false
  | a :: as, b :: bs => if a = b then lexLe as bs else decide (a < b)

/-- Lexicographic comparison of strings. -/
def strLe (a b : String) : Bool := lexLe a.data b.data

theorem lexLe_total : ∀ p q, (lexLe p q || lexLe q p) = true := by
  intro p
  induction p with
  | nil => intro q; simp [lexLe]
  | cons a as ih =>
    intro q
    cases q with
    | nil => simp [lexLe]
    | cons b bs =>
      simp only [lexLe]
      by_cases hab : a = b
      · subst hab
        simp [ih]
      · rw [if_neg hab, if_neg (Ne.symm hab)]
        rcases Ne.lt_or_lt hab with h | h
        · simp [h]
        · simp [h]

theorem lexLe_trans : ∀ p q r, lexLe p q = true → lexLe q r = true → lexLe p r = true := by
  intro p
  induction p with
  | nil => intro q r _ _; simp [lexLe]
  | cons a as ih =>
    intro q r h1 h2
    cases q with
    | nil => simp [lexLe] at h1
    | cons b bs =>
      cases r with
      | nil => simp [lexLe] at h2
      | cons c cs =>
        simp only [lexLe] at h1 h2 ⊢
        by_cases hab : a = b
        · subst hab
          rw [if_pos rfl] at h1
          by_cases hbc : a = c
          · subst hbc
            rw [if_pos rfl] at h2 ⊢
            exact ih bs cs h1 h2
          · rw [if_neg hbc] at h2 ⊢
            exact h2
        · rw [if_neg hab] at h1
          by_cases hbc : b = c
          · subst hbc
            rw [if_neg hab]
            exact h1
          · rw [if_neg hbc] at h2
            by_cases hac : a = c
            · subst hac
              exact absurd (lt_trans (of_decide_eq_true h1) (of_decide_eq_true h2))
                (lt_irrefl a)
            · rw [if_neg hac]
              exact decide_eq_true (lt_trans (of_decide_eq_true h1) (of_decide_eq_true h2))

theorem strLe_total (a b : String) : (strLe a b || strLe b a) = true := lexLe_total _ _

theorem strLe_trans (a b c : String) :
    strLe a b = true → strLe b c = true → strLe a c = true := lexLe_trans _ _ _

/-! ## Record store: fetch operations (`database_ops.py`) -/

/-- A row returned by `fetch_bills`: `b.*` plus the joined `ministry_name`
(inner join, so always present) and `state_name` (left join, so nullable). -/
structure BillRow where
  bill : Bill
  ministry_name : String
  state_name : Option String
deriving DecidableEq

/-- A row returned by `fetch_questions`. -/
structure QuestionRow where
  question : Question
  ministry_name : String
  state_name : Option String
deriving DecidableEq

/-- `FROM bills b JOIN ministries m ON b.ministry_code = m.code
LEFT JOIN states s ON b.state_code = s.code`: the inner join drops rows whose
`ministry_code` is NULL or matches no ministry; the left join yields a NULL
`state_name` when `state_code` is NULL or matches no state.  (`code` is UNIQUE
in both lookup tables, so `find?` returns the unique matching row.) -/
def joinBills (bills : List Bill) (ministries : List Ministry) (states : List StateRow) :
    List BillRow :=
  bills.filterMap fun b =>
    match b.ministry_code with
    | none => none
    | some mc =>
      (ministries.find? fun m => m.code == mc).map fun m =>
        { bill := b, ministry_name := m.name,
          state_name := b.state_code.bind fun sc =>
            (states.find? fun s => s.code == sc).map (·.name) }

/-- The `LIKE` disjunction of `fetch_bills`:
`LOWER(bill_code) LIKE ? OR LOWER(bill_name) LIKE ? OR LOWER(m.name) LIKE ?`
with parameter `"%" + search_term.lower() + "%"`. -/
def billSearchHit (search_term : String) (r : BillRow) : Bool :=
  sqlLikeContains search_term r.bill.bill_code ||
  sqlLikeContains search_term r.bill.bill_name ||
  sqlLikeContains search_term r.ministry_name

/-- `ORDER BY b.introduced_date DESC` comparison for bill rows. -/
def billDateDesc (a b : BillRow) : Bool :=
  strLe b.bill.introduced_date a.bill.introduced_date

/-- `fetch_bills(legislative_body, search_term)`: join, filter by exact body
match, apply the `LIKE` disjunction only when `search_term` is truthy
(non-empty), and order by date descending. -/
def fetch_bills (bills : List Bill) (ministries : List Ministry) (states : List StateRow)
    (legislative_body search_term : String) : List BillRow :=
  ((joinBills bills ministries states).filter fun r =>
    (r.bill.legislative_body == legislative_body) &&
    (search_term.isEmpty || billSearchHit search_term r)).mergeSort billDateDesc

/-- The join of `fetch_questions`. -/
def joinQuestions (questions : List Question) (ministries : List Ministry)
    (states : List StateRow) : List QuestionRow :=
  questions.filterMap fun q =>
    match q.ministry_code with
    | none => none
    | some mc =>
      (ministries.find? fun m => m.code == mc).map fun m =>
        { question := q, ministry_name := m.name,
          state_name := q.state_code.bind fun sc =>
            (states.find? fun s => s.code == sc).map (·.name) }

/-- The `LIKE` disjunction of `fetch_questions`. -/
def questionSearchHit (search_term : String) (r : QuestionRow) : Bool :=
  sqlLikeContains search_term r.question.question_code ||
  sqlLikeContains search_term r.question.question_title ||
  sqlLikeContains search_term r.ministry_name

/-- `ORDER BY q.introduced_date DESC` comparison for question rows. -/
def questionDateDesc (a b : QuestionRow) : Bool :=
  strLe b.question.introduced_date a.question.introduced_date

/-- `fetch_questions(legislative_body, search_term)`. -/
def fetch_questions (questions : List Question) (ministries : List Ministry)
    (states : List StateRow) (legislative_body search_term : String) : List QuestionRow :=
  ((joinQuestions questions ministries states).filter fun r =>
    (r.question.legislative_body == legislative_body) &&
    (search_term.isEmpty || questionSearchHit search_term r)).mergeSort questionDateDesc

/-- The `try/except` wrapper of `fetch_bills`: any exception raised by the
query is caught and an empty DataFrame is returned instead. -/
def fetch_bills_result (query_outcome : Except String (List BillRow)) : List BillRow :=
  match query_outcome with
  | .ok df => df
  | .error _ => []

/-- The `try/except` wrapper of `fetch_questions`. -/
def fetch_questions_result (query_outcome : Except String (List QuestionRow)) :
    List QuestionRow :=
  match query_outcome with
  | .ok df => df
  | .error _ => []

/-! ## Search suggestions (`fetch_search_suggestions`) -/

/-- One row of the suggestion query: the record's body (for the `WHERE`
filter) and the three selected columns. -/
structure SuggRow where
  body : String
  code : String
  name : String
  ministry_name : String
deriving DecidableEq

/-- Suggestion rows drawn from the `bills` table (inner join with ministries). -/
def billSuggRows (bills : List Bill) (ministries : List Ministry) : List SuggRow :=
  bills.filterMap fun b =>
    match b.ministry_code with
    | none => none
    | some mc =>
      (ministries.find? fun m => m.code == mc).map fun m =>
        { body := b.legislative_body, code := b.bill_code, name := b.bill_name,
          ministry_name := m.name }

/-- Suggestion rows drawn from the `questions` table. -/
def questionSuggRows (questions : List Question) (ministries : List Ministry) : List SuggRow :=
  questions.filterMap fun q =>
    match q.ministry_code with
    | none => none
    | some mc =>
      (ministries.find? fun m => m.code == mc).map fun m =>
        { body := q.legislative_body, code := q.question_code, name := q.question_title,
          ministry_name := m.name }

/-- `fetch_search_suggestions(legislative_body, search_term)`: empty for a
query of length < 2 (which covers the falsy empty string); otherwise the table
is chosen by `'Bill' in legislative_body`, the query filters by body and the
`LIKE` disjunction with `LIMIT 10`, and the three columns of the fetched rows
are poured into a Python `set` and returned with `sorted`. -/
def fetch_search_suggestions (bills : List Bill) (questions : List Question)
    (ministries : List Ministry) (legislative_body search_term : String) : List String :=
  if search_term.length < 2 then []
  else
    ((((if strIn "Bill" legislative_body then billSuggRows bills ministries
        else questionSuggRows questions ministries).filter fun r =>
          (r.body == legislative_body) &&
          (sqlLikeContains search_term r.code || sqlLikeContains search_term r.name ||
            sqlLikeContains search_term r.ministry_name)).take 10).flatMap
      (fun r => [r.code, r.name, r.ministry_name])).dedup.mergeSort strLe

/-! ## Record store: mutations -/

/-- Outcome banner of a mutation: `ok` mirrors an `st.success` call, `err` an
`st.error` call (the code never raises past its handlers). -/
inductive OpResult where
  | ok
  | err
deriving DecidableEq

/-- AUTOINCREMENT id for a new bill row. -/
def nextBillId (bills : List Bill) : Nat :=
  bills.foldl (fun acc b => max acc b.id) 0 + 1

/-- AUTOINCREMENT id for a new question row. -/
def nextQuestionId (questions : List Question) : Nat :=
  questions.foldl (fun acc q => max acc q.id) 0 + 1

/-- `save_bill_record(bill_data)`: the INSERT succeeds unless it violates the
UNIQUE constraint on `bill_code`, in which case the `sqlite3.Error` is caught
and an error banner shown. -/
def save_bill_record (bills : List Bill) (d : BillData) : List Bill × OpResult :=
  if bills.any fun b => b.bill_code == d.bill_code then (bills, .err)
  else (bills ++ [{ toBillData := d, id := nextBillId bills }], .ok)

/-- The INSERT of `render_question_form` (UNIQUE constraint on
`question_code`). -/
def save_question_record (questions : List Question) (d : QuestionData) :
    List Question × OpResult :=
  if questions.any fun q => q.question_code == d.question_code then (questions, .err)
  else (questions ++ [{ toQuestionData := d, id := nextQuestionId questions }], .ok)

/-- `delete_record(table, record_id, record_code)` (and the identical inline
delete of `render_update_delete_ui`): an error banner only when the id could
not be determined; otherwise `DELETE FROM table WHERE id = ?` runs and a
success banner is shown, whether or not any row matched. -/
def delete_record {α : Type} (rows : List α) (getId : α → Nat) (record_id : Option Nat) :
    List α × OpResult :=
  match record_id with
  | none => (rows, .err)
  | some i => (rows.filter fun r => getId r != i, .ok)

/-- `UPDATE bills SET current_status = ?, approval_result = ? WHERE id = ?`
from `render_update_delete_ui`, followed by a success banner. -/
def update_bill_status (bills : List Bill) (record_id : Nat)
    (new_status new_approval : String) : List Bill × OpResult :=
  (bills.map fun b =>
    if b.id == record_id then
      { b with current_status := new_status, approval_result := new_approval }
    else b, .ok)

/-- `UPDATE questions SET current_status = ? WHERE id = ?`. -/
def update_question_status (questions : List Question) (record_id : Nat)
    (new_status : String) : List Question × OpResult :=
  (questions.map fun q =>
    if q.id == record_id then { q with current_status := new_status } else q, .ok)

/-! ## Admin creation forms (`admin_forms.py`) -/

/-- ASCII uppercasing of a character (Python `str.upper` on ASCII). -/
def upperChar (c : Char) : Char :=
  if 'a' ≤ c ∧ c ≤ 'z' then Char.ofNat (c.toNat - 32) else c

/-- ASCII uppercasing of a string. -/
def asciiUpper (s : String) : String :=
  String.mk (s.data.map upperChar)

/-- The add-ministry form: requires both fields non-empty (Python truthiness),
uppercases the code and inserts; an `IntegrityError` on the UNIQUE code or
name leaves the table unchanged. -/
def insertMinistry (ministries : List Ministry) (code name : String) : List Ministry :=
  if code.isEmpty || name.isEmpty then ministries
  else if ministries.any fun m => m.code == asciiUpper code || m.name == name then ministries
  else ministries ++ [{ code := asciiUpper code, name := name }]

/-- The add-state form. -/
def insertState (states : List StateRow) (code name : String) : List StateRow :=
  if code.isEmpty || name.isEmpty then states
  else if states.any fun s => s.code == asciiUpper code || s.name == name then states
  else states ++ [{ code := asciiUpper code, name := name }]

/-- The widget values of one submission of the bill creation form.
`random_num` stands for the `random.randint(1000, 9999)` draw; `has_pdf` for
whether a PDF was uploaded (the file contents are outside the model). -/
structure BillFormInput where
  bill_name : String
  introduced_by : String
  introduced_date : String
  selected_state_name : String
  selected_ministry_name : String
  current_status : String
  approval_result : String
  money_checkbox : Bool
  votes_favour : Nat
  votes_against : Nat
  has_pdf : Bool
  random_num : Nat
deriving DecidableEq

/-- `render_bill_form(legislative_body)` up to the construction of
`bill_data`: `none` when the prerequisite metadata is missing or the required
selections are still on their placeholders; otherwise the tuple passed to
`save_bill_record`.  A Rajya Sabha submission forces `is_money_bill = False`;
the state code is looked up only for State Assembly; the approval label
depends on the body. -/
def render_bill_form (ministries : List Ministry) (states : List StateRow)
    (legislative_body : String) (inp : BillFormInput) : Option BillData :=
  let is_rajya_sabha := legislative_body == "Rajya Sabha"
  let is_state_assembly := legislative_body == "State Assembly"
  if ministries.isEmpty || (is_state_assembly && states.isEmpty) then none
  else if inp.selected_ministry_name == "-- Select Ministry --" ||
      (is_state_assembly && inp.selected_state_name == "-- Select State --") then none
  else
    let state_code := if is_state_assembly then
        (states.find? fun s => s.name == inp.selected_state_name).map (·.code)
      else none
    let ministry_code := (ministries.find? fun m => m.name == inp.selected_ministry_name).map (·.code)
    let bill_code := genBillCode legislative_body state_code ministry_code inp.random_num
    let pdf_path := if inp.has_pdf then some ("pdfs/" ++ bill_code ++ "_bill.pdf") else none
    some
      { bill_code := bill_code, bill_name := inp.bill_name,
        introduced_by := inp.introduced_by, ministry_code := ministry_code,
        legislative_body := legislative_body, state_code := state_code,
        votes_favour := inp.votes_favour, votes_against := inp.votes_against,
        current_status := inp.current_status,
        approval_status := if is_state_assembly then "Governor Approval" else "President Approval",
        approval_result := inp.approval_result,
        is_money_bill := if is_rajya_sabha then false else inp.money_checkbox,
        pdf_path := pdf_path, introduced_date := inp.introduced_date }

/-- The widget values of one submission of the question creation form. -/
structure QuestionFormInput where
  question_title : String
  introduced_by : String
  introduced_date : String
  selected_state_name : String
  selected_ministry_name : String
  q_type : String
  current_status : String
  has_pdf : Bool
  random_num : Nat
deriving DecidableEq

/-- `render_question_form(legislative_body)` up to the constructed INSERT
tuple. -/
def render_question_form (ministries : List Ministry) (states : List StateRow)
    (legislative_body : String) (inp : QuestionFormInput) : Option QuestionData :=
  let is_state_assembly := legislative_body == "State Assembly"
  if ministries.isEmpty || (is_state_assembly && states.isEmpty) then none
  else if inp.selected_ministry_name == "-- Select Ministry --" ||
      (is_state_assembly && inp.selected_state_name == "-- Select State --") then none
  else
    let state_code := if is_state_assembly then
        (states.find? fun s => s.name == inp.selected_state_name).map (·.code)
      else none
    let ministry_code := (ministries.find? fun m => m.name == inp.selected_ministry_name).map (·.code)
    let question_code := genQuestionCode legislative_body state_code ministry_code inp.random_num
    let pdf_path := if inp.has_pdf then some ("pdfs/" ++ question_code ++ "_qn.pdf") else none
    some
      { question_code := question_code, question_title := inp.question_title,
        introduced_by := inp.introduced_by, ministry_code := ministry_code,
        legislative_body := legislative_body, state_code := state_code,
        q_type := inp.q_type, current_status := inp.current_status,
        pdf_path := pdf_path, introduced_date := inp.introduced_date }

/-! ## The admin state machine (every mutating operation of the app) -/

/-- The persistent database. -/
structure DB where
  ministries : List Ministry
  states : List StateRow
  bills : List Bill
  questions : List Question
deriving DecidableEq

/-- One admin interaction that can touch the store. -/
inductive AdminOp where
  | addMinistry (code name : String)
  | addState (code name : String)
  | createBill (legislative_body : String) (inp : BillFormInput)
  | createQuestion (legislative_body : String) (inp : QuestionFormInput)
  | updateBillStatus (record_id : Nat) (new_status new_approval : String)
  | updateQuestionStatus (record_id : Nat) (new_status : String)
  | deleteBill (record_id : Option Nat)
  | deleteQuestion (record_id : Option Nat)

/-- Effect of one admin operation on the database. -/
def applyOp (db : DB) : AdminOp → DB
  | .addMinistry code name => { db with ministries := insertMinistry db.ministries code name }
  | .addState code name => { db with states := insertState db.states code name }
  | .createBill body inp =>
    match render_bill_form db.ministries db.states body inp with
    | none => db
    | some d => { db with bills := (save_bill_record db.bills d).1 }
  | .createQuestion body inp =>
    match render_question_form db.ministries db.states body inp with
    | none => db
    | some d => { db with questions := (save_question_record db.questions d).1 }
  | .updateBillStatus i st ap => { db with bills := (update_bill_status db.bills i st ap).1 }
  | .updateQuestionStatus i st =>
    { db with questions := (update_question_status db.questions i st).1 }
  | .deleteBill i => { db with bills := (delete_record db.bills Bill.id i).1 }
  | .deleteQuestion i => { db with questions := (delete_record db.questions Question.id i).1 }

/-- Run a sequence of admin operations from the freshly initialized (empty)
database. -/
def runOps (ops : List AdminOp) : DB :=
  ops.foldl applyOp ⟨[], [], [], []⟩

/-! ## Viewer sort orders (`viewers_modules.py`) -/

/-- The `pd.Categorical` key for the bill status sort: position of the status
in `['Passed', 'Pending', 'Not Passed']`, `none` (NaN) for anything else. -/
def billStatusKey (s : String) : Option Nat :=
  if s == "Passed" then some 0
  else if s == "Pending" then some 1
  else if s == "Not Passed" then some 2
  else none

/-- `sort_values('status_sort')` comparison: ascending on the category index,
NaN (unknown status) last. -/
def billStatusLe (a b : BillRow) : Bool :=
  match billStatusKey a.bill.current_status, billStatusKey b.bill.current_status with
  | some x, some y => decide (x ≤ y)
  | some _, none => true
  | none, some _ => false
  | none, none => true

/-- The "Status" sort of `render_bills_viewer`:
`df_bills.sort_values('status_sort')` with the pandas default
`kind='quicksort'`, which pandas does not document as stable.  An executable
model must pick some concrete algorithm; `mergeSort` stands in for it, and
only algorithm-independent properties are asserted of this definition — that
the result is a permutation of the input ordered by `billStatusLe` — never
the relative order of rows with equal keys, where the program's quicksort is
free to differ. -/
def sort_bills_by_status (rows : List BillRow) : List BillRow :=
  rows.mergeSort billStatusLe

/-- The `pd.Categorical` key for the question status sort: position in
`['Answered', 'Not Answered']`. -/
def questionStatusKey (s : String) : Option Nat :=
  if s == "Answered" then some 0
  else if s == "Not Answered" then some 1
  else none

/-- `sort_values('status_sort', ascending=False)` comparison: descending on
the category index, NaN last. -/
def questionStatusDescLe (a b : QuestionRow) : Bool :=
  match questionStatusKey a.question.current_status, questionStatusKey b.question.current_status with
  | some x, some y => decide (y ≤ x)
  | some _, none => true
  | none, some _ => false
  | none, none => true

/-- The "Status" sort of `render_questions_viewer`:
`df_qns.sort_values('status_sort', ascending=False)` with the pandas default
(unstable) `kind='quicksort'`; as for bills, `mergeSort` is only a stand-in
and nothing about the order of equal-key rows is asserted of it. -/
def sort_questions_by_status (rows : List QuestionRow) : List QuestionRow :=
  rows.mergeSort questionStatusDescLe

/-! ## Test fixtures (concrete rows used by witnesses and counterexamples) -/

/-- A sample ministry row. -/
def finanMin : Ministry := { code := "FN", name := "Finance" }

/-- A sample stored Lok Sabha bill (all fields space-free ASCII). -/
def sampleBill : Bill :=
  { bill_code := "BL-FN-1234", bill_name := "FinanceReformAct", introduced_by := "MemberA",
    ministry_code := some "FN", legislative_body := "Lok Sabha", state_code := none,
    votes_favour := 10, votes_against := 3, current_status := "Pending",
    approval_status := "President Approval", approval_result := "Pending",
    is_money_bill := false, pdf_path := none, introduced_date := "2024-01-01", id := 1 }

/-- The row `fetch_bills` produces for `sampleBill` joined with `finanMin`. -/
def sampleBillRow : BillRow :=
  { bill := sampleBill, ministry_name := "Finance", state_name := none }

/-! ## General helper lemmas -/

theorem map_eq_self_of {α : Type} (l : List α) (f : α → α) (h : ∀ a ∈ l, f a = a) :
    l.map f = l := by
  induction l with
  | nil => rfl
  | cons x xs ih =>
    simp only [List.map_cons, h x (by simp), ih (fun a ha => h a (by simp [ha]))]

theorem mergeSort_pair {α : Type} (le : α → α → Bool) (a b : α) :
    [a, b].mergeSort le = if le a b then [a, b] else [b, a] := by
  simp [List.mergeSort, List.merge]

/-! ## C1 — shape of generated record codes -/

/-- C1: every generated record code has the specified shape — a State Assembly
Bill or Question gets `{stateCode}-{ministryCode}-{n}`, a Lok Sabha or Rajya
Sabha Bill gets `BL-{ministryCode}-{n}`, a non-state Question gets
`QN-{ministryCode}-{n}` — and for every value `n` that `random.randint(1000,
9999)` can draw (the inclusive range `[1000, 9999]`), the decimal suffix has
exactly four digits. -/
theorem C1_generated_code_shape (sc mc body : String) (n : Nat)
    (h1 : 1000 ≤ n) (h2 : n ≤ 9999) :
    genBillCode "State Assembly" (some sc) (some mc) n
        = sc ++ "-" ++ mc ++ "-" ++ Nat.repr n ∧
    genQuestionCode "State Assembly" (some sc) (some mc) n
        = sc ++ "-" ++ mc ++ "-" ++ Nat.repr n ∧
    (body ≠ "State Assembly" →
      genBillCode body none (some mc) n = "BL-" ++ mc ++ "-" ++ Nat.repr n) ∧
    (body ≠ "State Assembly" →
      genQuestionCode body none (some mc) n = "QN-" ++ mc ++ "-" ++ Nat.repr n) ∧
    (Nat.repr n).length = 4 := by
  refine ⟨?_, ?_, fun h => ?_, fun h => ?_, repr_length_four n h1 h2⟩
  · simp [genBillCode, pyStr]
  · simp [genQuestionCode, pyStr]
  · simp [genBillCode, pyStr, h]
  · simp [genQuestionCode, pyStr, h]

/-- Witness for C1 at the concrete draw `n = 4321`. -/
theorem C1_generated_code_shape_witness :
    1000 ≤ 4321 ∧ 4321 ≤ 9999 ∧
    genBillCode "State Assembly" (some "MH") (some "FN") 4321
      = "MH" ++ "-" ++ "FN" ++ "-" ++ Nat.repr 4321 ∧
    (Nat.repr 4321).length = 4 :=
  ⟨by decide, by decide,
   (C1_generated_code_shape "MH" "FN" "Lok Sabha" 4321 (by decide) (by decide)).1,
   (C1_generated_code_shape "MH" "FN" "Lok Sabha" 4321 (by decide) (by decide)).2.2.2.2⟩

/-! ## C2 — delete/update on an absent id -/

/-- C2 (counterexample): the claim says delete-by-id and status-update fail
with `NotFound` on an absent id.  In the code the bare `DELETE`/`UPDATE`
affect zero rows and the success banner is shown anyway: deleting id 1 from
an empty table reports success, a second delete of `sampleBill.id` after the
first one also reports success, and updating an absent id reports success. -/
theorem C2_absent_id_counterexample :
    (delete_record ([] : List Bill) Bill.id (some 1)).2 = OpResult.ok ∧
    (delete_record [sampleBill] Bill.id (some 1)).1 = [] ∧
    (delete_record (delete_record [sampleBill] Bill.id (some 1)).1 Bill.id (some 1)).2
      = OpResult.ok ∧
    (update_bill_status ([] : List Bill) 1 "Passed" "Yes").2 = OpResult.ok := by
  decide

/-- C2 (amended): the delete-by-id operation on an absent id leaves the table
unchanged and reports success (never `NotFound`); a second delete of the same
id likewise reports success; the status-update operations on an absent id
leave every row unchanged and report success. -/
theorem C2_absent_id_amended :
    (∀ {α : Type} (rows : List α) (getId : α → Nat) (i : Nat),
      (∀ r ∈ rows, getId r ≠ i) → delete_record rows getId (some i) = (rows, OpResult.ok)) ∧
    (∀ {α : Type} (rows : List α) (getId : α → Nat) (i : Nat),
      (delete_record (delete_record rows getId (some i)).1 getId (some i)).2 = OpResult.ok) ∧
    (∀ (bills : List Bill) (i : Nat) (st ap : String),
      (∀ b ∈ bills, b.id ≠ i) → update_bill_status bills i st ap = (bills, OpResult.ok)) ∧
    (∀ (questions : List Question) (i : Nat) (st : String),
      (∀ q ∈ questions, q.id ≠ i) →
        update_question_status questions i st = (questions, OpResult.ok)) := by
  refine ⟨?_, ?_, ?_, ?_⟩
  · intro α rows getId i h
    simp only [delete_record]
    have heq : rows.filter (fun r => getId r != i) = rows :=
      List.filter_eq_self.mpr (by intro a ha; simpa using h a ha)
    rw [heq]
  · intro α rows getId i
    rfl
  · intro bills i st ap h
    simp only [update_bill_status]
    have heq := map_eq_self_of bills
      (fun b => if b.id == i then
        { b with current_status := st, approval_result := ap } else b)
      (by intro b hb; simp [h b hb])
    rw [heq]
  · intro questions i st h
    simp only [update_question_status]
    have heq := map_eq_self_of questions
      (fun q => if q.id == i then { q with current_status := st } else q)
      (by intro q hq; simp [h q hq])
    rw [heq]

/-- Witness for the amended C2 at a concrete absent id. -/
theorem C2_absent_id_amended_witness :
    (∀ r ∈ [sampleBill], Bill.id r ≠ 2) ∧
    delete_record [sampleBill] Bill.id (some 2) = ([sampleBill], OpResult.ok) :=
  ⟨by decide, C2_absent_id_amended.1 [sampleBill] Bill.id 2 (by decide)⟩

/-! ## LIKE-matching lemmas -/

theorem likeMatch_nil (s : List Char) : likeMatch [] s = s.isEmpty := by
  simp [likeMatch]

theorem likeMatch_pct (ps s : List Char) :
    likeMatch ('%' :: ps) s = s.tails.any (fun t => likeMatch ps t) := by
  simp [likeMatch]

theorem likeMatch_lit_nil (p : Char) (ps : List Char) (h : p ≠ '%') :
    likeMatch (p :: ps) [] = false := by
  simp [likeMatch, h]

theorem likeMatch_lit_cons (p : Char) (ps : List Char) (c : Char) (cs : List Char)
    (h : p ≠ '%') :
    likeMatch (p :: ps) (c :: cs)
      = ((decide (p = '_') || decide (p = c)) && likeMatch ps cs) := by
  simp [likeMatch, h]

theorem likeMatch_pct_singleton (s : List Char) : likeMatch ['%'] s = true := by
  rw [likeMatch_pct, List.any_eq_true]
  exact ⟨[], (List.mem_tails [] s).mpr List.nil_suffix, by simp [likeMatch_nil]⟩

/-- A wildcard-free pattern followed by `%` matches exactly the strings it is
a prefix of. -/
theorem likeMatch_append_pct_iff (q : List Char) (hq : ∀ c ∈ q, c ≠ '%' ∧ c ≠ '_') :
    ∀ s, (likeMatch (q ++ ['%']) s = true ↔ q <+: s) := by
  induction q with
  | nil => intro s; simp [likeMatch_pct_singleton, List.nil_prefix]
  | cons a as ih =>
    have ha := hq a (by simp)
    intro s
    cases s with
    | nil =>
      rw [List.cons_append, likeMatch_lit_nil a _ ha.1]
      simp
    | cons c cs =>
      rw [List.cons_append, likeMatch_lit_cons a _ c cs ha.1, List.cons_prefix_cons]
      simp [ha.2, ih (fun x hx => hq x (by simp [hx])) cs]

/-- The pattern `"%" ++ q ++ "%"` for wildcard-free `q` matches exactly the
strings containing `q` as a contiguous substring. -/
theorem likeMatch_pct_append_pct_iff (q s : List Char)
    (hq : ∀ c ∈ q, c ≠ '%' ∧ c ≠ '_') :
    likeMatch ('%' :: (q ++ ['%'])) s = true ↔ q <:+: s := by
  rw [likeMatch_pct, List.any_eq_true]
  constructor
  · rintro ⟨t, ht, hm⟩
    rw [List.mem_tails] at ht
    rw [likeMatch_append_pct_iff q hq t] at hm
    exact List.infix_iff_prefix_suffix.mpr ⟨t, hm, ht⟩
  · intro h
    obtain ⟨t, hp, hsuf⟩ := List.infix_iff_prefix_suffix.mp h
    exact ⟨t, (List.mem_tails t s).mpr hsuf, (likeMatch_append_pct_iff q hq t).mpr hp⟩

/-- The search query contains no SQL `LIKE` wildcard characters. -/
abbrev noWildcards (s : String) : Prop := ∀ c ∈ s.data, c ≠ '%' ∧ c ≠ '_'

/-! ## C5 — the search predicate -/

/-- C5 (counterexample): the claim says a whitespace-only query matches every
row.  In the code `if search_term:` is true for `" "`, so the `LIKE` filter is
applied with the pattern `"% %"`: on a store holding `sampleBill` (whose code,
name and ministry contain no space) the whitespace query returns nothing,
while the genuinely empty query returns the row. -/
theorem C5_search_counterexample :
    fetch_bills [sampleBill] [finanMin] [] "Lok Sabha" " " = [] ∧
    fetch_bills [sampleBill] [finanMin] [] "Lok Sabha" "" = [sampleBillRow] := by
  constructor
  · have h : ((joinBills [sampleBill] [finanMin] []).filter fun r =>
        (r.bill.legislative_body == "Lok Sabha") &&
        ((" " : String).isEmpty || billSearchHit " " r)) = [] := by decide
    show ((joinBills [sampleBill] [finanMin] []).filter _).mergeSort billDateDesc = []
    rw [h, List.mergeSort_nil]
  · have h : ((joinBills [sampleBill] [finanMin] []).filter fun r =>
        (r.bill.legislative_body == "Lok Sabha") &&
        (("" : String).isEmpty || billSearchHit "" r)) = [sampleBillRow] := by decide
    show ((joinBills [sampleBill] [finanMin] []).filter _).mergeSort billDateDesc
      = [sampleBillRow]
    rw [h, List.mergeSort_singleton]

/-- C5 (amended): the stored predicate is SQL `LIKE` with `%`/`_` treated as
wildcards; for a wildcard-free query it coincides with case-folded substring
containment against code, name/title or ministry name.  A row of the selected
body is returned exactly when the query is empty (Python falsy) or the `LIKE`
disjunction hits; a whitespace-only query is a real search pattern, not a
match-all. -/
theorem C5_search_amended :
    (∀ (q f : String), noWildcards (asciiLower q) →
      (sqlLikeContains q f = true ↔ (asciiLower q).data <:+: (asciiLower f).data)) ∧
    (∀ (bills : List Bill) (mins : List Ministry) (states : List StateRow)
        (body q : String) (r : BillRow),
      r ∈ fetch_bills bills mins states body q ↔
        (r ∈ joinBills bills mins states ∧ r.bill.legislative_body = body ∧
          (q = "" ∨ billSearchHit q r = true))) ∧
    (∀ (questions : List Question) (mins : List Ministry) (states : List StateRow)
        (body q : String) (r : QuestionRow),
      r ∈ fetch_questions questions mins states body q ↔
        (r ∈ joinQuestions questions mins states ∧ r.question.legislative_body = body ∧
          (q = "" ∨ questionSearchHit q r = true))) := by
  refine ⟨?_, ?_, ?_⟩
  · intro q f hq
    exact likeMatch_pct_append_pct_iff _ _ hq
  · intro bills mins states body q r
    simp only [fetch_bills, List.mem_mergeSort, List.mem_filter, Bool.and_eq_true,
      Bool.or_eq_true, beq_iff_eq, String.isEmpty_iff]
  · intro questions mins states body q r
    simp only [fetch_questions, List.mem_mergeSort, List.mem_filter, Bool.and_eq_true,
      Bool.or_eq_true, beq_iff_eq, String.isEmpty_iff]

/-- Witness for the amended C5 at a concrete query and field. -/
theorem C5_search_amended_witness :
    noWildcards (asciiLower "fi") ∧
    (sqlLikeContains "fi" "FinanceReformAct" = true ↔
      (asciiLower "fi").data <:+: (asciiLower "FinanceReformAct").data) :=
  ⟨by decide, C5_search_amended.1 "fi" "FinanceReformAct" (by decide)⟩

/-! ## C3 — search suggestions -/

/-- A sample ministry for the suggestion counterexample. -/
def agriMin : Ministry := { code := "AG", name := "AgricultureMinistry" }

/-- A sample stored question under `agriMin`. -/
def mkSuggQuestion (i : Nat) (code title : String) : Question :=
  { question_code := code, question_title := title, introduced_by := "MemberB",
    ministry_code := some "AG", legislative_body := "Lok Sabha", state_code := none,
    q_type := "Starred", current_status := "Answered", pdf_path := none,
    introduced_date := "2024-02-01", id := i }

/-- Five questions whose titles all contain `"qt"`, with five distinct codes
and five distinct titles. -/
def suggQuestions : List Question :=
  [mkSuggQuestion 1 "qcone" "qtone", mkSuggQuestion 2 "qctwo" "qttwo",
   mkSuggQuestion 3 "qcthree" "qtthree", mkSuggQuestion 4 "qcfour" "qtfour",
   mkSuggQuestion 5 "qcfive" "qtfive"]

theorem flatMap_three_length (l : List SuggRow) :
    (l.flatMap fun r => [r.code, r.name, r.ministry_name]).length = 3 * l.length := by
  induction l with
  | nil => rfl
  | cons x xs ih => simp [ih]; omega

/-- C3 (counterexample): the claim caps the suggestion list at 10.  The SQL
`LIMIT 10` caps the fetched *rows*, but each row contributes its code, its
name/title and its ministry name: five matching questions with distinct codes
and titles already yield 11 distinct suggestions. -/
theorem C3_suggestions_counterexample :
    10 < (fetch_search_suggestions [] suggQuestions [agriMin] "Lok Sabha" "qt").length := by
  unfold fetch_search_suggestions
  rw [if_neg (by decide), List.length_mergeSort]
  decide

/-- C3 (amended): for every legislative body and query, the suggestion lookup
returns at most 30 suggestions (three per fetched row, at most 10 rows),
deduplicated across the three field types and in lexicographic order; a query
of length < 2 (including the empty string) returns the empty list. -/
theorem C3_suggestions_amended (bills : List Bill) (questions : List Question)
    (mins : List Ministry) (body q : String) :
    (q.length < 2 → fetch_search_suggestions bills questions mins body q = []) ∧
    (fetch_search_suggestions bills questions mins body q).length ≤ 30 ∧
    (fetch_search_suggestions bills questions mins body q).Nodup ∧
    (fetch_search_suggestions bills questions mins body q).Pairwise
      (fun a b => strLe a b = true) := by
  refine ⟨fun h => by simp [fetch_search_suggestions, h], ?_, ?_, ?_⟩ <;>
    by_cases h : q.length < 2
  · simp [fetch_search_suggestions, h]
  · unfold fetch_search_suggestions
    rw [if_neg h, List.length_mergeSort]
    have h1 := (List.dedup_sublist
      ((((if strIn "Bill" body then billSuggRows bills mins
          else questionSuggRows questions mins).filter fun r =>
            (r.body == body) &&
            (sqlLikeContains q r.code || sqlLikeContains q r.name ||
              sqlLikeContains q r.ministry_name)).take 10).flatMap
        (fun r => [r.code, r.name, r.ministry_name]))).length_le
    rw [flatMap_three_length] at h1
    have h2 := List.length_take_le 10
      ((if strIn "Bill" body then billSuggRows bills mins
        else questionSuggRows questions mins).filter fun r =>
          (r.body == body) &&
          (sqlLikeContains q r.code || sqlLikeContains q r.name ||
            sqlLikeContains q r.ministry_name))
    omega
  · simp [fetch_search_suggestions, h]
  · unfold fetch_search_suggestions
    rw [if_neg h]
    exact (List.mergeSort_perm _ _).nodup_iff.mpr (List.nodup_dedup _)
  · simp [fetch_search_suggestions, h]
  · unfold fetch_search_suggestions
    rw [if_neg h]
    exact List.sorted_mergeSort strLe_trans strLe_total _

/-- Witness for the amended C3 at the empty query. -/
theorem C3_suggestions_amended_witness :
    ("" : String).length < 2 ∧
    fetch_search_suggestions [] [] [] "Lok Sabha" "" = [] :=
  ⟨by decide, (C3_suggestions_amended [] [] [] "Lok Sabha" "").1 (by decide)⟩

/-! ## C4 — status sort orders -/

/-- A sample answered question row. -/
def answeredRow : QuestionRow :=
  { question := mkSuggQuestion 11 "qcans" "TitleAnswered", ministry_name := "AgricultureMinistry",
    state_name := none }

/-- A sample not-answered question row. -/
def notAnsweredRow : QuestionRow :=
  { question := { mkSuggQuestion 12 "qcnot" "TitleNotAnswered" with
      current_status := "Not Answered" },
    ministry_name := "AgricultureMinistry", state_name := none }

theorem billStatusLe_trans :
    ∀ a b c : BillRow, billStatusLe a b → billStatusLe b c → billStatusLe a c := by
  intro a b c
  unfold billStatusLe
  cases billStatusKey a.bill.current_status <;>
    cases billStatusKey b.bill.current_status <;>
    cases billStatusKey c.bill.current_status <;>
    (simp; all_goals omega)

theorem billStatusLe_total :
    ∀ a b : BillRow, (billStatusLe a b || billStatusLe b a) = true := by
  intro a b
  unfold billStatusLe
  cases billStatusKey a.bill.current_status <;>
    cases billStatusKey b.bill.current_status <;>
    (simp; all_goals omega)

theorem questionStatusDescLe_trans :
    ∀ a b c : QuestionRow,
      questionStatusDescLe a b → questionStatusDescLe b c → questionStatusDescLe a c := by
  intro a b c
  unfold questionStatusDescLe
  cases questionStatusKey a.question.current_status <;>
    cases questionStatusKey b.question.current_status <;>
    cases questionStatusKey c.question.current_status <;>
    (simp; all_goals omega)

theorem questionStatusDescLe_total :
    ∀ a b : QuestionRow, (questionStatusDescLe a b || questionStatusDescLe b a) = true := by
  intro a b
  unfold questionStatusDescLe
  cases questionStatusKey a.question.current_status <;>
    cases questionStatusKey b.question.current_status <;>
    (simp; all_goals omega)

/-- C4 (counterexample): the claim orders Questions `Answered` before
`Not Answered`.  The code sorts the categorical key with `ascending=False`,
so a two-row list comes back with the `Not Answered` row first.  The two
keys are strictly ordered, so this output is the unique sorted permutation —
every correct comparison sort, pandas' quicksort included, returns it. -/
theorem C4_status_sort_counterexample :
    answeredRow.question.current_status = "Answered" ∧
    notAnsweredRow.question.current_status = "Not Answered" ∧
    sort_questions_by_status [answeredRow, notAnsweredRow]
      = [notAnsweredRow, answeredRow] := by
  refine ⟨rfl, rfl, ?_⟩
  rw [sort_questions_by_status, mergeSort_pair, if_neg (by decide)]

/-- C4 (amended): the status sort returns a permutation of the fetched rows
(no row is added, dropped or modified, and the stored records are untouched),
with Bills ordered `Passed` before `Pending` before `Not Passed` (unknown
statuses last) and Questions ordered `Not Answered` before `Answered` (the
key is sorted descending, unknown statuses last).  The original claim's
stability guarantee is dropped: pandas' default quicksort does not promise
it, so only these algorithm-independent properties are asserted. -/
theorem C4_status_sort_amended (rows : List BillRow) (qrows : List QuestionRow) :
    (sort_bills_by_status rows).Perm rows ∧
    (sort_bills_by_status rows).Pairwise (fun a b => billStatusLe a b = true) ∧
    (sort_questions_by_status qrows).Perm qrows ∧
    (sort_questions_by_status qrows).Pairwise
      (fun a b => questionStatusDescLe a b = true) :=
  ⟨List.mergeSort_perm rows billStatusLe,
   List.sorted_mergeSort billStatusLe_trans billStatusLe_total rows,
   List.mergeSort_perm qrows questionStatusDescLe,
   List.sorted_mergeSort questionStatusDescLe_trans questionStatusDescLe_total qrows⟩

/-! ## C6 — Rajya Sabha bills are never money bills -/

theorem render_bill_form_body_money (mins : List Ministry) (states : List StateRow)
    (body : String) (inp : BillFormInput) (d : BillData)
    (h : render_bill_form mins states body inp = some d) :
    d.legislative_body = body ∧ (body = "Rajya Sabha" → d.is_money_bill = false) := by
  simp only [render_bill_form] at h
  split at h
  · exact absurd h (by simp)
  · split at h
    · exact absurd h (by simp)
    · injection h with h'
      subst h'
      refine ⟨rfl, fun hRS => ?_⟩
      simp [hRS]

theorem save_bill_record_mem (bills : List Bill) (d : BillData) (b : Bill)
    (h : b ∈ (save_bill_record bills d).1) : b ∈ bills ∨ b.toBillData = d := by
  unfold save_bill_record at h
  split at h
  · exact Or.inl h
  · rcases List.mem_append.mp h with h1 | h1
    · exact Or.inl h1
    · right
      rw [List.mem_singleton] at h1
      subst h1
      rfl

theorem delete_record_mem {α : Type} (rows : List α) (getId : α → Nat)
    (rid : Option Nat) (b : α) (h : b ∈ (delete_record rows getId rid).1) : b ∈ rows := by
  unfold delete_record at h
  cases rid with
  | none => exact h
  | some i => exact (List.mem_filter.mp h).1

/-- The invariant of C6 over the `bills` table. -/
def moneyInv (bills : List Bill) : Prop :=
  ∀ b ∈ bills, b.legislative_body = "Rajya Sabha" → b.is_money_bill = false

theorem applyOp_moneyInv (db : DB) (op : AdminOp) (h : moneyInv db.bills) :
    moneyInv (applyOp db op).bills := by
  cases op with
  | addMinistry c n => exact h
  | addState c n => exact h
  | createBill body inp =>
    simp only [applyOp]
    cases hr : render_bill_form db.ministries db.states body inp with
    | none => exact h
    | some d =>
      intro b hb hRS
      rcases save_bill_record_mem db.bills d b hb with h1 | h1
      · exact h b h1 hRS
      · have hd := render_bill_form_body_money _ _ _ _ _ hr
        have hleg : b.legislative_body = d.legislative_body := by rw [h1]
        have hmb : b.is_money_bill = d.is_money_bill := by rw [h1]
        rw [hmb]
        exact hd.2 (by rw [← hd.1, ← hleg, hRS])
  | createQuestion body inp =>
    simp only [applyOp]
    split <;> exact h
  | updateBillStatus i st ap =>
    intro b hb hRS
    simp only [applyOp, update_bill_status] at hb
    rcases List.mem_map.mp hb with ⟨a, ha, rfl⟩
    revert hRS
    split <;> (intro hRS; exact h a ha hRS)
  | updateQuestionStatus i st => exact h
  | deleteBill i =>
    intro b hb hRS
    exact h b (delete_record_mem _ _ _ _ hb) hRS
  | deleteQuestion i => exact h

theorem runOps_moneyInv (ops : List AdminOp) :
    ∀ db : DB, moneyInv db.bills → moneyInv ((ops.foldl applyOp db)).bills := by
  induction ops with
  | nil => intro db h; exact h
  | cons op rest ih => intro db h; exact ih _ (applyOp_moneyInv db op h)

/-- C6: after any sequence of admin operations run from the empty database,
every stored bill whose legislative body is Rajya Sabha has
`is_money_bill = false` — the creation form forces the flag off for Rajya
Sabha, and no other operation can set it. -/
theorem C6_rajya_sabha_money_bill (ops : List AdminOp) (b : Bill)
    (hb : b ∈ (runOps ops).bills) (hRS : b.legislative_body = "Rajya Sabha") :
    b.is_money_bill = false :=
  runOps_moneyInv ops ⟨[], [], [], []⟩ (by intro x hx; simp at hx) b hb hRS

/-- The form input of a Rajya Sabha bill submission with the money-bill box
ticked. -/
def rsInput : BillFormInput :=
  { bill_name := "UpperHouseBill", introduced_by := "MemberC",
    introduced_date := "2024-03-01", selected_state_name := "",
    selected_ministry_name := "Finance", current_status := "Pending",
    approval_result := "Pending", money_checkbox := true, votes_favour := 5,
    votes_against := 2, has_pdf := false, random_num := 4321 }

/-- A concrete operation sequence that tries to create a Rajya Sabha money
bill. -/
def rsOps : List AdminOp :=
  [AdminOp.addMinistry "FN" "Finance", AdminOp.createBill "Rajya Sabha" rsInput]

/-- The bill actually stored by `rsOps`. -/
def rsBill : Bill := ((runOps rsOps).bills).getD 0 sampleBill

/-- Witness for C6: the bill created from `rsInput` (checkbox ticked) is
stored with the flag forced off. -/
theorem C6_rajya_sabha_money_bill_witness :
    rsBill ∈ (runOps rsOps).bills ∧ rsBill.legislative_body = "Rajya Sabha" ∧
    rsBill.is_money_bill = false :=
  ⟨by decide, by decide, C6_rajya_sabha_money_bill rsOps rsBill (by decide) (by decide)⟩

/-! ## C7 — `state_code` is set iff the body is State Assembly -/

/-- C7: a record built by the bill or question creation form has a non-null
`state_code` exactly when the legislative body is State Assembly: for a State
Assembly submission whose selected state name is offered by the selectbox
(i.e. is the name of some stored state), the stored code is that state's
code; for any other body the stored `state_code` is NULL. -/
theorem C7_state_code_iff :
    (∀ (mins : List Ministry) (states : List StateRow) (body : String)
        (inp : BillFormInput) (d : BillData),
      render_bill_form mins states body inp = some d →
      (body = "State Assembly" →
        (∃ s ∈ states, s.name = inp.selected_state_name) →
        ∃ s ∈ states, s.name = inp.selected_state_name ∧ d.state_code = some s.code) ∧
      (body ≠ "State Assembly" → d.state_code = none)) ∧
    (∀ (mins : List Ministry) (states : List StateRow) (body : String)
        (inp : QuestionFormInput) (d : QuestionData),
      render_question_form mins states body inp = some d →
      (body = "State Assembly" →
        (∃ s ∈ states, s.name = inp.selected_state_name) →
        ∃ s ∈ states, s.name = inp.selected_state_name ∧ d.state_code = some s.code) ∧
      (body ≠ "State Assembly" → d.state_code = none)) := by
  constructor
  · intro mins states body inp d h
    simp only [render_bill_form] at h
    split at h
    · exact absurd h (by simp)
    · split at h
      · exact absurd h (by simp)
      · injection h with h'
        subst h'
        constructor
        · intro hSA hex
          subst hSA
          obtain ⟨s₀, hs₀, hname⟩ := hex
          have hsome : (states.find? fun s => s.name == inp.selected_state_name).isSome :=
            List.find?_isSome.mpr ⟨s₀, hs₀, by simp [hname]⟩
          obtain ⟨s₁, hfind⟩ := Option.isSome_iff_exists.mp hsome
          refine ⟨s₁, List.mem_of_find?_eq_some hfind, ?_, ?_⟩
          · simpa using List.find?_some hfind
          · simp [hfind]
        · intro hne
          simp [hne]
  · intro mins states body inp d h
    simp only [render_question_form] at h
    split at h
    · exact absurd h (by simp)
    · split at h
      · exact absurd h (by simp)
      · injection h with h'
        subst h'
        constructor
        · intro hSA hex
          subst hSA
          obtain ⟨s₀, hs₀, hname⟩ := hex
          have hsome : (states.find? fun s => s.name == inp.selected_state_name).isSome :=
            List.find?_isSome.mpr ⟨s₀, hs₀, by simp [hname]⟩
          obtain ⟨s₁, hfind⟩ := Option.isSome_iff_exists.mp hsome
          refine ⟨s₁, List.mem_of_find?_eq_some hfind, ?_, ?_⟩
          · simpa using List.find?_some hfind
          · simp [hfind]
        · intro hne
          simp [hne]

/-- The states table used by the C7 witness. -/
def saStates : List StateRow := [{ code := "MH", name := "Maharashtra" }]

/-- A State Assembly bill submission selecting the stored state. -/
def saInput : BillFormInput :=
  { bill_name := "StateBill", introduced_by := "MLA", introduced_date := "2024-04-01",
    selected_state_name := "Maharashtra", selected_ministry_name := "Finance",
    current_status := "Pending", approval_result := "Pending", money_checkbox := false,
    votes_favour := 1, votes_against := 0, has_pdf := false, random_num := 2024 }

/-- The bill data produced by that submission. -/
def saBillData : BillData :=
  (render_bill_form [finanMin] saStates "State Assembly" saInput).getD sampleBill.toBillData

/-- Witness for C7 at a concrete State Assembly submission. -/
theorem C7_state_code_iff_witness :
    render_bill_form [finanMin] saStates "State Assembly" saInput = some saBillData ∧
    ∃ s ∈ saStates, s.name = saInput.selected_state_name ∧
      saBillData.state_code = some s.code :=
  ⟨by decide,
   (C7_state_code_iff.1 [finanMin] saStates "State Assembly" saInput saBillData
     (by decide)).1 rfl (by decide)⟩

/-! ## C8 — the status update modifies only the status fields -/

theorem update_bill_status_find? (bills : List Bill) (i : Nat) (st ap : String) (b : Bill)
    (h : bills.find? (fun r => r.id == i) = some b) :
    (update_bill_status bills i st ap).1.find? (fun r => r.id == i)
      = some { b with current_status := st, approval_result := ap } := by
  unfold update_bill_status
  induction bills with
  | nil => simp at h
  | cons hd tl ih =>
    by_cases hid : (hd.id == i) = true
    · simp only [List.find?_cons, hid] at h
      injection h with h'
      subst h'
      simp only [List.map_cons]
      rw [if_pos hid]
      simp [List.find?_cons, hid]
    · have hidf : (hd.id == i) = false := Bool.eq_false_iff.mpr hid
      simp only [List.find?_cons, hidf] at h
      simp only [List.map_cons]
      rw [if_neg (by simp [hidf])]
      simp only [List.find?_cons, hidf]
      exact ih h

theorem update_question_status_find? (questions : List Question) (i : Nat) (st : String)
    (q : Question) (h : questions.find? (fun r => r.id == i) = some q) :
    (update_question_status questions i st).1.find? (fun r => r.id == i)
      = some { q with current_status := st } := by
  unfold update_question_status
  induction questions with
  | nil => simp at h
  | cons hd tl ih =>
    by_cases hid : (hd.id == i) = true
    · simp only [List.find?_cons, hid] at h
      injection h with h'
      subst h'
      simp only [List.map_cons]
      rw [if_pos hid]
      simp [List.find?_cons, hid]
    · have hidf : (hd.id == i) = false := Bool.eq_false_iff.mpr hid
      simp only [List.find?_cons, hidf] at h
      simp only [List.map_cons]
      rw [if_neg (by simp [hidf])]
      simp only [List.find?_cons, hidf]
      exact ih h

/-- C8: updating a stored record's status touches only the status fields —
re-fetching (by id) a Bill after `UPDATE ... SET current_status = 'Passed',
approval_result = ?` returns `current_status = "Passed"` with every other
column equal to its previous value, and likewise for Questions (only
`current_status` changes). -/
theorem C8_update_frame :
    (∀ (bills : List Bill) (i : Nat) (ap : String) (b : Bill),
      bills.find? (fun r => r.id == i) = some b →
      ∃ b', (update_bill_status bills i "Passed" ap).1.find? (fun r => r.id == i)
          = some b' ∧
        b'.current_status = "Passed" ∧ b'.approval_result = ap ∧
        b'.bill_code = b.bill_code ∧ b'.bill_name = b.bill_name ∧
        b'.introduced_by = b.introduced_by ∧ b'.ministry_code = b.ministry_code ∧
        b'.legislative_body = b.legislative_body ∧ b'.state_code = b.state_code ∧
        b'.votes_favour = b.votes_favour ∧ b'.votes_against = b.votes_against ∧
        b'.approval_status = b.approval_status ∧ b'.is_money_bill = b.is_money_bill ∧
        b'.pdf_path = b.pdf_path ∧ b'.introduced_date = b.introduced_date ∧
        b'.id = b.id) ∧
    (∀ (questions : List Question) (i : Nat) (st : String) (q : Question),
      questions.find? (fun r => r.id == i) = some q →
      ∃ q', (update_question_status questions i st).1.find? (fun r => r.id == i)
          = some q' ∧
        q'.current_status = st ∧
        q'.question_code = q.question_code ∧ q'.question_title = q.question_title ∧
        q'.introduced_by = q.introduced_by ∧ q'.ministry_code = q.ministry_code ∧
        q'.legislative_body = q.legislative_body ∧ q'.state_code = q.state_code ∧
        q'.q_type = q.q_type ∧ q'.pdf_path = q.pdf_path ∧
        q'.introduced_date = q.introduced_date ∧ q'.id = q.id) := by
  constructor
  · intro bills i ap b h
    exact ⟨{ b with current_status := "Passed", approval_result := ap },
      update_bill_status_find? bills i "Passed" ap b h,
      rfl, rfl, rfl, rfl, rfl, rfl, rfl, rfl, rfl, rfl, rfl, rfl, rfl, rfl, rfl⟩
  · intro questions i st q h
    exact ⟨{ q with current_status := st },
      update_question_status_find? questions i st q h,
      rfl, rfl, rfl, rfl, rfl, rfl, rfl, rfl, rfl, rfl, rfl⟩

/-- Witness for C8 on the concrete one-bill store. -/
theorem C8_update_frame_witness :
    [sampleBill].find? (fun r => r.id == 1) = some sampleBill ∧
    ∃ b', (update_bill_status [sampleBill] 1 "Passed" "Yes").1.find?
        (fun r => r.id == 1) = some b' ∧
      b'.current_status = "Passed" ∧ b'.approval_result = "Yes" ∧
      b'.bill_code = sampleBill.bill_code ∧ b'.bill_name = sampleBill.bill_name ∧
      b'.introduced_by = sampleBill.introduced_by ∧
      b'.ministry_code = sampleBill.ministry_code ∧
      b'.legislative_body = sampleBill.legislative_body ∧
      b'.state_code = sampleBill.state_code ∧
      b'.votes_favour = sampleBill.votes_favour ∧
      b'.votes_against = sampleBill.votes_against ∧
      b'.approval_status = sampleBill.approval_status ∧
      b'.is_money_bill = sampleBill.is_money_bill ∧
      b'.pdf_path = sampleBill.pdf_path ∧
      b'.introduced_date = sampleBill.introduced_date ∧ b'.id = sampleBill.id :=
  ⟨by decide, C8_update_frame.1 [sampleBill] 1 "Yes" sampleBill (by decide)⟩

/-! ## C9 — join semantics of the fetch queries -/

theorem fetch_bills_row_ministry (bills : List Bill) (mins : List Ministry)
    (states : List StateRow) (body q : String) (r : BillRow)
    (h : r ∈ fetch_bills bills mins states body q) :
    ∃ m ∈ mins, r.bill.ministry_code = some m.code ∧ r.ministry_name = m.name := by
  have h1 := (List.mem_filter.mp (List.mem_mergeSort.mp h)).1
  unfold joinBills at h1
  rcases List.mem_filterMap.mp h1 with ⟨b, _hb, hmap⟩
  cases hmc : b.ministry_code with
  | none => rw [hmc] at hmap; simp at hmap
  | some mc =>
    rw [hmc] at hmap
    simp only [] at hmap
    rcases Option.map_eq_some'.mp hmap with ⟨m, hfind, hr⟩
    subst hr
    refine ⟨m, List.mem_of_find?_eq_some hfind, ?_, rfl⟩
    have hcode : m.code = mc := by simpa using List.find?_some hfind
    rw [hmc, hcode]

theorem fetch_questions_row_ministry (questions : List Question) (mins : List Ministry)
    (states : List StateRow) (body q : String) (r : QuestionRow)
    (h : r ∈ fetch_questions questions mins states body q) :
    ∃ m ∈ mins, r.question.ministry_code = some m.code ∧ r.ministry_name = m.name := by
  have h1 := (List.mem_filter.mp (List.mem_mergeSort.mp h)).1
  unfold joinQuestions at h1
  rcases List.mem_filterMap.mp h1 with ⟨b, _hb, hmap⟩
  cases hmc : b.ministry_code with
  | none => rw [hmc] at hmap; simp at hmap
  | some mc =>
    rw [hmc] at hmap
    simp only [] at hmap
    rcases Option.map_eq_some'.mp hmap with ⟨m, hfind, hr⟩
    subst hr
    refine ⟨m, List.mem_of_find?_eq_some hfind, ?_, rfl⟩
    have hcode : m.code = mc := by simpa using List.find?_some hfind
    rw [hmc, hcode]

/-- C9: the fetch queries inner-join the record to `ministries` and
left-join it to `states`: every returned row carries a ministry actually
stored; a record whose `ministry_code` matches no ministry appears in no
fetch result; and a record whose ministry exists is returned (for the
match-all empty query) even when its `state_code` matches no state — the
joined `state_name` is then NULL, computed by the left-join lookup. -/
theorem C9_join_semantics :
    (∀ (bills : List Bill) (mins : List Ministry) (states : List StateRow)
        (body q : String) (r : BillRow),
      r ∈ fetch_bills bills mins states body q →
      ∃ m ∈ mins, r.bill.ministry_code = some m.code ∧ r.ministry_name = m.name) ∧
    (∀ (bills : List Bill) (mins : List Ministry) (states : List StateRow)
        (body q : String) (b : Bill),
      (∀ m ∈ mins, b.ministry_code ≠ some m.code) →
      ∀ r ∈ fetch_bills bills mins states body q, r.bill ≠ b) ∧
    (∀ (bills : List Bill) (mins : List Ministry) (states : List StateRow)
        (body : String) (b : Bill),
      b ∈ bills → b.legislative_body = body →
      (∃ m ∈ mins, b.ministry_code = some m.code) →
      ∃ r ∈ fetch_bills bills mins states body "", r.bill = b ∧
        r.state_name = (b.state_code.bind fun sc =>
          (states.find? fun s => s.code == sc).map (·.name))) ∧
    (∀ (questions : List Question) (mins : List Ministry) (states : List StateRow)
        (body q : String) (r : QuestionRow),
      r ∈ fetch_questions questions mins states body q →
      ∃ m ∈ mins, r.question.ministry_code = some m.code ∧ r.ministry_name = m.name) ∧
    (∀ (questions : List Question) (mins : List Ministry) (states : List StateRow)
        (body q : String) (qn : Question),
      (∀ m ∈ mins, qn.ministry_code ≠ some m.code) →
      ∀ r ∈ fetch_questions questions mins states body q, r.question ≠ qn) ∧
    (∀ (questions : List Question) (mins : List Ministry) (states : List StateRow)
        (body : String) (qn : Question),
      qn ∈ questions → qn.legislative_body = body →
      (∃ m ∈ mins, qn.ministry_code = some m.code) →
      ∃ r ∈ fetch_questions questions mins states body "", r.question = qn ∧
        r.state_name = (qn.state_code.bind fun sc =>
          (states.find? fun s => s.code == sc).map (·.name))) := by
  refine ⟨fetch_bills_row_ministry, ?_, ?_, fetch_questions_row_ministry, ?_, ?_⟩
  · intro bills mins states body q b hno r hr heq
    obtain ⟨m, hm, hcode, _⟩ := fetch_bills_row_ministry bills mins states body q r hr
    rw [heq] at hcode
    exact hno m hm hcode
  · intro bills mins states body b hb hbody hm
    obtain ⟨m, hmmem, hmcode⟩ := hm
    have hsome : (mins.find? fun m' => m'.code == m.code).isSome :=
      List.find?_isSome.mpr ⟨m, hmmem, by simp⟩
    obtain ⟨m₁, hfind⟩ := Option.isSome_iff_exists.mp hsome
    refine ⟨{ bill := b, ministry_name := m₁.name,
              state_name := b.state_code.bind fun sc =>
                (states.find? fun s => s.code == sc).map (·.name) },
            ?_, rfl, rfl⟩
    rw [fetch_bills, List.mem_mergeSort, List.mem_filter]
    constructor
    · unfold joinBills
      refine List.mem_filterMap.mpr ⟨b, hb, ?_⟩
      rw [hmcode]
      simp only []
      rw [hfind]
      rfl
    · simp [hbody]
      exact Or.inl (by decide)
  · intro questions mins states body q qn hno r hr heq
    obtain ⟨m, hm, hcode, _⟩ := fetch_questions_row_ministry questions mins states body q r hr
    rw [heq] at hcode
    exact hno m hm hcode
  · intro questions mins states body qn hq hbody hm
    obtain ⟨m, hmmem, hmcode⟩ := hm
    have hsome : (mins.find? fun m' => m'.code == m.code).isSome :=
      List.find?_isSome.mpr ⟨m, hmmem, by simp⟩
    obtain ⟨m₁, hfind⟩ := Option.isSome_iff_exists.mp hsome
    refine ⟨{ question := qn, ministry_name := m₁.name,
              state_name := qn.state_code.bind fun sc =>
                (states.find? fun s => s.code == sc).map (·.name) },
            ?_, rfl, rfl⟩
    rw [fetch_questions, List.mem_mergeSort, List.mem_filter]
    constructor
    · unfold joinQuestions
      refine List.mem_filterMap.mpr ⟨qn, hq, ?_⟩
      rw [hmcode]
      simp only []
      rw [hfind]
      rfl
    · simp [hbody]
      exact Or.inl (by decide)

/-- A bill whose `state_code` references no stored state. -/
def danglingStateBill : Bill :=
  { sampleBill with
    state_code := some "XX"
    bill_code := "XX-FN-5678"
    legislative_body := "State Assembly"
    id := 7 }

/-- Witness for C9: the dangling-state bill is still fetched, with a NULL
state name. -/
theorem C9_join_semantics_witness :
    danglingStateBill ∈ [danglingStateBill] ∧
    danglingStateBill.legislative_body = "State Assembly" ∧
    (∃ m ∈ [finanMin], danglingStateBill.ministry_code = some m.code) ∧
    ∃ r ∈ fetch_bills [danglingStateBill] [finanMin] [] "State Assembly" "",
      r.bill = danglingStateBill ∧
      r.state_name = (danglingStateBill.state_code.bind fun sc =>
        (([] : List StateRow).find? fun s => s.code == sc).map (·.name)) :=
  ⟨by decide, by decide, by decide,
   C9_join_semantics.2.2.1 [danglingStateBill] [finanMin] [] "State Assembly"
     danglingStateBill (by decide) (by decide) (by decide)⟩

/-! ## C10 — query failures are swallowed -/

/-- C10: when the underlying query raises, `fetch_bills`/`fetch_questions`
catch the exception and return an empty DataFrame, which is exactly the value
returned for a successful query with zero matches — a caller cannot tell the
two apart; on success the query rows are passed through unchanged. -/
theorem C10_error_swallowed (e : String) (rows : List BillRow) (qrows : List QuestionRow) :
    fetch_bills_result (Except.error e) = [] ∧
    fetch_bills_result (Except.error e) = fetch_bills_result (Except.ok ([] : List BillRow)) ∧
    fetch_bills_result (Except.ok rows) = rows ∧
    fetch_questions_result (Except.error e) = [] ∧
    fetch_questions_result (Except.error e)
      = fetch_questions_result (Except.ok ([] : List QuestionRow)) ∧
    fetch_questions_result (Except.ok qrows) = qrows :=
  ⟨rfl, rfl, rfl, rfl, rfl, rfl⟩

end LegisQ
